import Mathlib

/-!
# Verification of the Pro_scraper query interpreter and extractor

Shallow embedding of `src/main.py` of the Pro_scraper repository:
the `description_to_selector` function (QueryInterpreter), the
"Extract Data" button handler (Extractor) with its session state, and
the scroll loop of `get_page_source` (PageFetcher), together with the
behaviour of the library calls they make (`str.lower`, `str.strip`,
substring `in`, the two `re` patterns, `BeautifulSoup.select`,
`Tag.get_text`, `Tag.get`, `urllib.parse.urljoin`, `pandas.read_html`).
-/

namespace ProScraper

/-! ## Python string primitives -/

/-- Python whitespace characters, the class matched by `str.strip()` and
by a regex `\s` on ASCII text: space, tab, newline, carriage return,
vertical tab, form feed. -/
def isPySpace (c : Char) : Bool :=
  c = ' ' || c = '\t' || c = '\n' || c = '\r' || c = Char.ofNat 11 || c = Char.ofNat 12

/-- Python `str.strip()`: drop leading and trailing whitespace. -/
def pyStrip (s : String) : String :=
  String.mk (((s.toList.dropWhile isPySpace).reverse.dropWhile isPySpace).reverse)

/-- Python `str.lower()` (ASCII case conversion, which is all the
interpreter's rules depend on). -/
def pyLower (s : String) : String :=
  String.mk (s.toList.map Char.toLower)

/-- `pat` occurs as a contiguous sublist of the second argument. -/
def containsSub (pat : List Char) : List Char → Bool
  | [] => pat.isEmpty
  | c :: rest => pat.isPrefixOf (c :: rest) || containsSub pat rest

/-- Python substring test `pat in s`. -/
def strIn (pat s : String) : Bool :=
  containsSub pat.toList s.toList

/-! ## The two regular expressions of `description_to_selector`

`re.search(r"kw\s['\"]([^'\"]+)['\"]", d)` for `kw` ∈ {`id`, `class`}:
scan left to right for the literal keyword, one whitespace character, an
opening quote (either kind), a maximal nonempty run of non-quote
characters, and a closing quote (either kind); the run is group 1. -/

def isQuote (c : Char) : Bool := c = '\'' || c = '"'

/-- Try to match `kw` `\s` `['\"]([^'\"]+)['\"]` at the very start of `s`,
returning the captured group. -/
def quotedAt (kw : List Char) (s : List Char) : Option String :=
  match kw, s with
  | k :: ks, c :: cs => if c = k then quotedAt ks cs else none
  | _ :: _, [] => none
  | [], s =>
    match s with
    | sp :: rest =>
      if isPySpace sp then
        match rest with
        | q :: rest2 =>
          if isQuote q then
            let run := rest2.takeWhile (fun c => !isQuote c)
            let after := rest2.dropWhile (fun c => !isQuote c)
            if run.isEmpty then none
            else if after.isEmpty then none
            else some (String.mk run)
          else none
        | [] => none
      else none
    | [] => none

/-- `re.search` for the pattern above: leftmost match wins. -/
def searchQuoted (kw : List Char) : List Char → Option String
  | [] => none
  | c :: cs =>
    match quotedAt kw (c :: cs) with
    | some r => some r
    | none => searchQuoted kw cs

/-- `re.match(r'^[a-zA-Z0-9]+$', s)` on an already-stripped string:
nonempty and every character ASCII alphanumeric. -/
def isAlnumWord (s : String) : Bool :=
  !s.toList.isEmpty && s.toList.all (fun c => c.isAlpha || c.isDigit)

/-! ## QueryInterpreter: `description_to_selector` (src/main.py:45-80) -/

/-- The hardcoded `keyword_map` of `description_to_selector`. -/
def keyword_map (k : String) : Option String :=
  if k = "all links" then some "a"
  else if k = "all paragraphs" then some "p"
  else if k = "all headings" then some "h1, h2, h3"
  else if k = "all images" then some "img"
  else if k = "all list items" then some "li"
  else none

/-- `.replace(' ', '.')` applied to the captured class value. -/
def spacesToDots (s : String) : String :=
  String.mk (s.toList.map (fun c => if c = ' ' then '.' else c))

/-- The tail of `description_to_selector` after the early-return
branches: the `keyword_map` lookup on `query_key`, then the `id` regex,
the `class` regex, and the bare-tag-name rule, over the normalized
description `d`; `result_type` is the type established by the earlier
branches. -/
def selectorLookup (d query_key result_type : String) : Option String × String :=
  match keyword_map query_key with
  | some sel => (some sel, result_type)
  | none =>
    match searchQuoted "id".toList d.toList with
    | some v => (some ("#" ++ v), result_type)
    | none =>
      match searchQuoted "class".toList d.toList with
      | some v => (some ("." ++ spacesToDots v), result_type)
      | none =>
        if !strIn " " d && isAlnumWord d then (some d, "text")
        else (none, result_type)

/-- The normalization step `description.lower().strip()`. -/
def normDesc (description : String) : String :=
  pyStrip (pyLower description)

/-- The rule chain of `description_to_selector` over the already
normalized description `d` (the Python code reassigns
`description = description.lower().strip()` first). -/
def descCore (d : String) : Option String × String :=
  if strIn "table" d then (some "table", "table_data")
  else if strIn "image" d then selectorLookup d "all images" "src"
  else if strIn "link" d || strIn "url" d then selectorLookup d "all links" "href"
  else if strIn "entire data" d || strIn "all data" d || strIn "all content" d then
    (some "body", "text_block")
  else if strIn "all paragraph" d then (some "p", "text_block")
  else selectorLookup d d "text"

/-- `description_to_selector` (src/main.py:45-80): maps a free-text
description to `(selector?, result_type)` with
`result_type ∈ {"text", "src", "href", "text_block", "table_data"}`. -/
def description_to_selector (description : String) : Option String × String :=
  descCore (normDesc description)

example : description_to_selector "all links" = (some "a", "href") := by decide
example : description_to_selector "show me the data table" = (some "table", "table_data") := by decide
example : description_to_selector "all images" = (some "img", "src") := by decide
example : description_to_selector "class 'price tag'" = (some ".price.tag", "text") := by decide
example : description_to_selector "id 'main'" = (some "#main", "text") := by decide
example : description_to_selector "xyz123" = (some "xyz123", "text") := by decide
example : description_to_selector "???" = (none, "text") := by decide
example : description_to_selector "" = (none, "text") := by decide
example : description_to_selector "entire data" = (some "body", "text_block") := by decide
example : description_to_selector "all paragraphs" = (some "p", "text_block") := by decide

/-! ## DOM model

The parse tree that `BeautifulSoup(html, 'html.parser')` hands to the
extractor: elements with a tag name, attributes and children, and text
nodes. -/

mutual
inductive Node where
  | text (s : String)
  | elem (tag : String) (attrs : List (String × String)) (children : NodeList)
deriving DecidableEq
inductive NodeList where
  | nil
  | cons (n : Node) (ns : NodeList)
deriving DecidableEq
end

/-- Attribute lookup on an element's attribute list. -/
def attrOf (attrs : List (String × String)) (k : String) : Option String :=
  (attrs.find? (fun p => p.1 = k)).map (fun p => p.2)

/-- `Tag.get(k, '')`: attribute value with default `''` (text nodes have
no attributes). -/
def Node.getAttrD (n : Node) (k : String) : String :=
  match n with
  | .text _ => ""
  | .elem _ attrs _ => (attrOf attrs k).getD ""

mutual
/-- All text fragments below a node, in document order
(BeautifulSoup's `.strings`). -/
def Node.texts : Node → List String
  | .text s => [s]
  | .elem _ _ cs => NodeList.texts cs
def NodeList.texts : NodeList → List String
  | .nil => []
  | .cons n ns => n.texts ++ NodeList.texts ns
end

/-- `Tag.get_text(strip=True, separator=sep)`: strip every text
fragment, drop the ones that become empty, join the rest with `sep`
(the code calls this with `sep = ""` for text blocks and `sep = " "`
for text lists). -/
def Node.strippedText (sep : String) (n : Node) : String :=
  String.intercalate sep ((n.texts.map pyStrip).filter (fun s => s ≠ ""))

/-! ## CSS selectors

`soup.select` is called only on selectors this program can produce:
comma-separated lists of a bare tag name, `#id`, or `.cls(.cls)*`
compound class selectors. -/

inductive SimpleSel where
  | tagSel (t : String)
  | idSel (v : String)
  | classSel (cs : List String)
deriving DecidableEq

/-- Split a character list at every occurrence of `c` (the semantics of
`str.split(c)` without empty-field collapsing). -/
def splitOnChar (c : Char) : List Char → List (List Char)
  | [] => [[]]
  | x :: xs =>
    let r := splitOnChar c xs
    if x = c then [] :: r
    else
      match r with
      | [] => [[x]]
      | y :: ys => (x :: y) :: ys

/-- Whitespace-separated class tokens of a `class` attribute value. -/
def classTokens (v : String) : List String :=
  ((splitOnChar ' ' v.toList).map String.mk).filter (fun s => s ≠ "")

/-- Does an element with the given tag and attributes match a simple
selector? -/
def matchesSimple (tag : String) (attrs : List (String × String)) : SimpleSel → Bool
  | .tagSel t => t = tag
  | .idSel v => attrOf attrs "id" = some v
  | .classSel cs =>
    match attrOf attrs "class" with
    | some v => !cs.isEmpty && cs.all (fun c => (classTokens v).contains c)
    | none => false

/-- Parse one comma-component of a selector string. -/
def parseSimple (s : String) : SimpleSel :=
  let s := pyStrip s
  match s.toList with
  | '#' :: rest => .idSel (String.mk rest)
  | '.' :: rest => .classSel ((splitOnChar '.' rest).map String.mk)
  | _ => .tagSel s

/-- Parse a selector string as the program uses them: a comma-separated
list of simple selectors. -/
def parseSelector (s : String) : List SimpleSel :=
  ((splitOnChar ',' s.toList).map String.mk).map parseSimple

mutual
/-- `soup.select`: every element in the tree (root included) matching
any of the simple selectors, in document order (preorder). -/
def Node.select (sels : List SimpleSel) : Node → List Node
  | .text _ => []
  | .elem t a cs =>
    (if sels.any (matchesSimple t a) then [Node.elem t a cs] else [])
      ++ NodeList.select sels cs
def NodeList.select (sels : List SimpleSel) : NodeList → List Node
  | .nil => []
  | .cons n ns => Node.select sels n ++ NodeList.select sels ns
end

mutual
/-- All `<table>` elements in the tree, in document order. -/
def Node.tables : Node → List Node
  | .text _ => []
  | .elem t a cs =>
    (if t = "table" then [Node.elem t a cs] else []) ++ NodeList.tables cs
def NodeList.tables : NodeList → List Node
  | .nil => []
  | .cons n ns => n.tables ++ NodeList.tables ns
end

/-! ## `urllib.parse.urljoin` and `pandas.read_html` -/

def isSchemeChar (c : Char) : Bool :=
  c.isAlpha || c.isDigit || c = '+' || c = '-' || c = '.'

/-- Does `u` start with a URL scheme (`[a-zA-Z][a-zA-Z0-9+.-]*:`)? -/
def hasScheme (u : String) : Bool :=
  match u.toList with
  | [] => false
  | c :: rest =>
    c.isAlpha && (rest.dropWhile isSchemeChar).head? = some ':'

/-- Split an absolute URL `sch://rest` into `(sch, rest)`. -/
def splitScheme (u : String) : Option (String × String) :=
  match u.toList with
  | [] => none
  | c :: rest =>
    if c.isAlpha then
      let sch := c :: rest.takeWhile isSchemeChar
      match rest.dropWhile isSchemeChar with
      | ':' :: '/' :: '/' :: tail => some (String.mk sch, String.mk tail)
      | _ => none
    else none

/-- Models `urllib.parse.urljoin(base, rel)` for the shapes this
program produces: an absolute `http(s)` base URL joined with an empty,
scheme-qualified, network-path (`//…`), absolute-path (`/…`) or
relative-path reference (dot-segment normalization not modelled — no
claim exercises it). -/
def urljoin (base rel : String) : String :=
  if rel = "" then base
  else if hasScheme rel then rel
  else
    match splitScheme base with
    | none => rel
    | some (sch, tail) =>
      if rel.toList.take 2 = ['/', '/'] then sch ++ ":" ++ rel
      else
        let netloc := tail.toList.takeWhile (fun c => c ≠ '/')
        let path := tail.toList.dropWhile (fun c => c ≠ '/')
        if rel.toList.head? = some '/' then
          sch ++ "://" ++ String.mk netloc ++ rel
        else
          let dir := (path.reverse.dropWhile (fun c => c ≠ '/')).reverse
          let dir := if dir.isEmpty then ['/'] else dir
          sch ++ "://" ++ String.mk netloc ++ String.mk dir ++ rel

example : urljoin "https://ex.com/" "/a" = "https://ex.com/a" := by decide
example : urljoin "https://ex.com/" "x" = "https://ex.com/x" := by decide
example : urljoin "https://ex.com/p/q" "x" = "https://ex.com/p/x" := by decide
example : urljoin "https://ex.com/" "https://o.org/z" = "https://o.org/z" := by decide

/-- A string on which `re.search('.+')` succeeds: it has at least one
character other than a newline. -/
def matchesDotPlus (s : String) : Bool :=
  s.toList.any (fun c => c ≠ '\n')

/-- The default `match='.+'` filter of `pandas.read_html`: a `<table>`
element qualifies only if some text node below it matches the pattern
(`table.find(string=re.compile('.+'))` is not `None`). -/
def tableQualifies (t : Node) : Bool :=
  t.texts.any matchesDotPlus

/-- Models `pandas.read_html(html)` with its default `match='.+'`:
every `<table>` element containing some non-empty text is parsed into a
frame (kept here as its DOM subtree, since no claim inspects cells);
it raises `ValueError("No tables found")` when the document contains no
table at all, and `ValueError("No tables found matching pattern '.+'")`
when tables exist but none has any matching text (so a textless
`<table></table>` alone is also an error). -/
def read_html (doc : Node) : Except String (List Node) :=
  let ts := doc.tables
  if ts.isEmpty then .error "No tables found"
  else
    let qs := ts.filter tableQualifies
    if qs.isEmpty then .error "No tables found matching pattern '.+'"
    else .ok qs

/-! ## The Extract Data button handler (src/main.py:138-172) -/

/-- The extraction-related `st.session_state` fields:
`results_df` (the `'results'` column of the DataFrame), `results_text`,
`table_list`, and `selector`. -/
structure SessionState where
  results_df : Option (List String)
  results_text : Option String
  table_list : Option (List Node)
  selector : Option String
deriving DecidableEq

/-- A handler run: the updated session state plus the message passed to
`st.error`, if any. -/
structure ActionOut where
  state : SessionState
  error : Option String
deriving DecidableEq

/-- The body of the per-element loop for list-shaped results
(src/main.py:156-167): the row contributed by one selected element, or
`none` when the element is skipped. -/
def rowOf (url result_type : String) (el : Node) : Option String :=
  if result_type = "src" then
    let content := el.getAttrD "src"
    if content ≠ "" && !strIn "data:image/gif;base64" content then
      some (urljoin url content)
    else none
  else if result_type = "href" then
    let content := el.getAttrD "href"
    if content ≠ "" then some (urljoin url content) else none
  else
    let content := el.strippedText " "
    if content ≠ "" then some content else none

/-- The text-block result (src/main.py:153-154):
`"\n\n".join(filter(None, [el.get_text(strip=True) for el in elements]))`. -/
def textBlockOf (elements : List Node) : String :=
  String.intercalate "\n\n" ((elements.map (Node.strippedText "")).filter (fun s => s ≠ ""))

/-- The Extract Data button handler (src/main.py:141-170), run under the
nonempty-description guard: interpret the description, clear the three
result fields, then — if a selector was produced — record it and run the
extraction dictated by `result_type` over the cached page; a `none`
selector or a `read_html` failure surfaces an `st.error` message
instead. -/
def extractAction (page_html : Node) (url description : String) (s : SessionState) :
    ActionOut :=
  let (selector, result_type) := description_to_selector description
  let s := { s with results_df := none, results_text := none, table_list := none }
  match selector with
  | none => ⟨s, some "Could not understand your description."⟩
  | some sel =>
    let s := { s with selector := some sel }
    if result_type = "table_data" then
      match read_html page_html with
      | .ok ts => ⟨{ s with table_list := some ts }, none⟩
      | .error e => ⟨s, some ("Could not parse tables. Error: " ++ e)⟩
    else
      let elements := page_html.select (parseSelector sel)
      if result_type = "text_block" then
        ⟨{ s with results_text := some (textBlockOf elements) }, none⟩
      else
        ⟨{ s with results_df := some (elements.filterMap (rowOf url result_type)) }, none⟩

/-- The ResultSet portion of the session state. -/
def SessionState.resultSet (s : SessionState) :
    Option (List String) × Option String × Option (List Node) :=
  (s.results_df, s.results_text, s.table_list)

/-! ## Quick end-to-end sanity checks -/

/-- Helper to write `NodeList` literals. -/
def nodes : List Node → NodeList
  | [] => .nil
  | n :: ns => .cons n (nodes ns)

/-- The document of the end-to-end scenario:
`<body><a href="/a">A</a><a href="x">B</a></body>`. -/
def linkDoc : Node :=
  .elem "body" [] (nodes
    [.elem "a" [("href", "/a")] (nodes [.text "A"]),
     .elem "a" [("href", "x")] (nodes [.text "B"])])

/-- An all-`none` session state. -/
def emptyState : SessionState := ⟨none, none, none, none⟩

example :
    (extractAction linkDoc "https://ex.com/" "all links" emptyState).state.results_df
      = some ["https://ex.com/a", "https://ex.com/x"] := by decide

/-! ## The scroll loop of `get_page_source` (src/main.py:30-36)

The browser is modelled by the sequence of values the two
`document.body.scrollHeight` reads can return: `heights 0` is the read
before the loop, `heights (i+1)` the read after the `i`-th
scroll-and-sleep. -/

/-- One run of the loop body with `fuel` iterations remaining: returns
the number of scroll-and-wait cycles still performed. `last` is the
Python `last_height` variable, `i` counts the scrolls already done. -/
def scrollAux (heights : Nat → Int) (last : Int) (i fuel : Nat) : Nat :=
  match fuel with
  | 0 => 0
  | fuel + 1 =>
    let new := heights (i + 1)
    if new = last then 1
    else 1 + scrollAux heights new (i + 1) fuel

/-- Number of scroll-and-wait cycles performed by
`for _ in range(5): scroll; sleep; read; if new == last: break` for a
given sequence of observed heights. -/
def scrollCount (heights : Nat → Int) : Nat :=
  scrollAux heights (heights 0) 0 5

example : scrollCount (fun _ => 100) = 1 := by decide
example : scrollCount (fun n => n) = 5 := by decide
example : scrollCount (fun n => min n 2) = 3 := by decide

/-! ## Spec-side definitions for the refinement claims -/

/-- The attribute-src extraction exactly as the claim words it: omit
elements whose src value is the base64 placeholder, skip elements with
no src attribute, resolve every remaining src value against the source
URL, in document order. (Written from the spec, for comparison with the
code's `rowOf`.) -/
def srcSpecRow (url : String) (el : Node) : Option String :=
  match el with
  | .text _ => none
  | .elem _ attrs _ =>
    match attrOf attrs "src" with
    | none => none
    | some v =>
      if strIn "data:image/gif;base64" v then none else some (urljoin url v)

/-- The attribute-src extraction as the code actually behaves: elements
whose src attribute is missing **or empty** are skipped, base64-gif
placeholders are omitted, the rest are resolved against the source URL,
in document order. -/
def srcCodeRow (url : String) (el : Node) : Option String :=
  match el with
  | .text _ => none
  | .elem _ attrs _ =>
    match attrOf attrs "src" with
    | none => none
    | some v =>
      if v = "" then none
      else if strIn "data:image/gif;base64" v then none
      else some (urljoin url v)

/-! ## Concrete fixtures -/

/-- A session state holding results from an earlier extraction. -/
def priorState : SessionState :=
  ⟨some ["old row"], some "old text", some [Node.elem "table" [] .nil], some "p"⟩

/-- `<body><img src=""></body>`: the src attribute is present but
empty. -/
def emptySrcDoc : Node :=
  .elem "body" [] (nodes [.elem "img" [("src", "")] .nil])

/-- `<body><img src="/i.png"><img src="data:image/gif;base64,R0lGOD"><img></body>`:
a resolvable image, a base64 placeholder, and an image with no src. -/
def imgDoc : Node :=
  .elem "body" [] (nodes
    [.elem "img" [("src", "/i.png")] .nil,
     .elem "img" [("src", "data:image/gif;base64,R0lGOD")] .nil,
     .elem "img" [] .nil])

/-! ## Helper lemmas -/

theorem selectorLookup_snd (d k rt : String) :
    (selectorLookup d k rt).2 = rt ∨ (selectorLookup d k rt).2 = "text" := by
  unfold selectorLookup
  split
  · exact Or.inl rfl
  · split
    · exact Or.inl rfl
    · split
      · exact Or.inl rfl
      · split
        · exact Or.inr rfl
        · exact Or.inl rfl

theorem selectorLookup_text_snd (d k : String) :
    (selectorLookup d k "text").2 = "text" := by
  rcases selectorLookup_snd d k "text" with h | h <;> exact h

theorem selectorLookup_images (d : String) :
    selectorLookup d "all images" "src" = (some "img", "src") := rfl

theorem selectorLookup_links (d : String) :
    selectorLookup d "all links" "href" = (some "a", "href") := rfl

theorem toLower_of_pySpace {c : Char} (h : isPySpace c = true) : Char.toLower c = c := by
  simp only [isPySpace, Bool.or_eq_true, decide_eq_true_eq] at h
  rcases h with ((((h | h) | h) | h) | h) | h <;> subst h <;> decide

theorem normDesc_of_space {s : String} (h : s.toList.all isPySpace = true) :
    normDesc s = "" := by
  have hall : ∀ c ∈ (pyLower s).toList, isPySpace c = true := by
    intro c hc
    simp only [pyLower] at hc
    have : (String.mk (s.toList.map Char.toLower)).toList = s.toList.map Char.toLower := rfl
    rw [this] at hc
    rcases List.mem_map.mp hc with ⟨a, ha, rfl⟩
    have hsp : isPySpace a = true := by
      have := List.all_eq_true.mp h a ha
      simpa using this
    rw [toLower_of_pySpace hsp]
    exact hsp
  have hdrop : (pyLower s).toList.dropWhile isPySpace = [] := by
    rw [List.dropWhile_eq_nil_iff]
    intro x hx
    exact hall x hx
  unfold normDesc pyStrip
  rw [hdrop]
  rfl

/-! ## Claim theorems -/

/-- C1: any description whose lowercased, trimmed form contains the
substring "table" is routed to the table sentinel selector with result
type `table_data`, short-circuiting every later rule. -/
theorem table_rule_short_circuits (d : String)
    (h : strIn "table" (normDesc d) = true) :
    description_to_selector d = (some "table", "table_data") := by
  unfold description_to_selector descCore
  rw [h]
  rfl

theorem table_rule_short_circuits_witness :
    strIn "table" (normDesc "show me the data tables please") = true ∧
      description_to_selector "show me the data tables please"
        = (some "table", "table_data") :=
  ⟨by decide, table_rule_short_circuits "show me the data tables please" (by decide)⟩

/-- C10: `description_to_selector` is total (it is a Lean function), and
on an empty or whitespace-only description every rule falls through:
the result is `(none, "text")` — unrecognized, never a selector. -/
theorem interpreter_total_whitespace_unrecognized (d : String)
    (h : d.toList.all isPySpace = true) :
    description_to_selector d = (none, "text") := by
  unfold description_to_selector
  rw [normDesc_of_space h]
  decide

theorem interpreter_total_whitespace_unrecognized_witness :
    "  ".toList.all isPySpace = true ∧
      description_to_selector "  " = (none, "text") :=
  ⟨by decide, interpreter_total_whitespace_unrecognized "  " (by decide)⟩

theorem descCore_cases (d : String) :
    descCore d = (some "table", "table_data") ∨
    descCore d = (some "img", "src") ∨
    descCore d = (some "a", "href") ∨
    descCore d = (some "body", "text_block") ∨
    descCore d = (some "p", "text_block") ∨
    (descCore d).2 = "text" := by
  unfold descCore
  split
  · exact Or.inl rfl
  · split
    · exact Or.inr (Or.inl (selectorLookup_images _))
    · split
      · exact Or.inr (Or.inr (Or.inl (selectorLookup_links _)))
      · split
        · exact Or.inr (Or.inr (Or.inr (Or.inl rfl)))
        · split
          · exact Or.inr (Or.inr (Or.inr (Or.inr (Or.inl rfl))))
          · exact Or.inr (Or.inr (Or.inr (Or.inr (Or.inr
              (selectorLookup_text_snd _ _)))))

/-- C9: whenever `description_to_selector` returns result type `src` the
selector is exactly `img`, and for `href` exactly `a`; selectors built
by the id- or class-pattern rules (those starting with `#` or `.`) only
ever come with the default `text` result type; and any description
containing "image" (resp. "link"/"url") but not "table" is always mapped
to `(img, src)` (resp. `(a, href)`), never reaching the id/class/bare-tag
rules. -/
theorem shape_selector_invariant (d : String) :
    ((description_to_selector d).2 = "src" →
      (description_to_selector d).1 = some "img") ∧
    ((description_to_selector d).2 = "href" →
      (description_to_selector d).1 = some "a") ∧
    (∀ s, (description_to_selector d).1 = some s →
      (s.toList.head? = some '#' ∨ s.toList.head? = some '.') →
      (description_to_selector d).2 = "text") ∧
    (strIn "table" (normDesc d) = false → strIn "image" (normDesc d) = true →
      description_to_selector d = (some "img", "src")) ∧
    (strIn "table" (normDesc d) = false → strIn "image" (normDesc d) = false →
      (strIn "link" (normDesc d) || strIn "url" (normDesc d)) = true →
      description_to_selector d = (some "a", "href")) := by
  have hd : description_to_selector d = descCore (normDesc d) := rfl
  refine ⟨?_, ?_, ?_, ?_, ?_⟩
  · intro hsrc
    rcases descCore_cases (normDesc d) with h | h | h | h | h | h
    · rw [hd, h] at hsrc; exact absurd hsrc (by decide)
    · rw [hd, h]
    · rw [hd, h] at hsrc; exact absurd hsrc (by decide)
    · rw [hd, h] at hsrc; exact absurd hsrc (by decide)
    · rw [hd, h] at hsrc; exact absurd hsrc (by decide)
    · rw [hd, h] at hsrc; exact absurd hsrc (by decide)
  · intro hhref
    rcases descCore_cases (normDesc d) with h | h | h | h | h | h
    · rw [hd, h] at hhref; exact absurd hhref (by decide)
    · rw [hd, h] at hhref; exact absurd hhref (by decide)
    · rw [hd, h]
    · rw [hd, h] at hhref; exact absurd hhref (by decide)
    · rw [hd, h] at hhref; exact absurd hhref (by decide)
    · rw [hd, h] at hhref; exact absurd hhref (by decide)
  · intro s hs hst
    rcases descCore_cases (normDesc d) with h | h | h | h | h | h
    · rw [hd, h] at hs
      obtain rfl := Option.some.inj hs
      rcases hst with h' | h' <;> exact absurd h' (by decide)
    · rw [hd, h] at hs
      obtain rfl := Option.some.inj hs
      rcases hst with h' | h' <;> exact absurd h' (by decide)
    · rw [hd, h] at hs
      obtain rfl := Option.some.inj hs
      rcases hst with h' | h' <;> exact absurd h' (by decide)
    · rw [hd, h] at hs
      obtain rfl := Option.some.inj hs
      rcases hst with h' | h' <;> exact absurd h' (by decide)
    · rw [hd, h] at hs
      obtain rfl := Option.some.inj hs
      rcases hst with h' | h' <;> exact absurd h' (by decide)
    · rw [hd]; exact h
  · intro ht hi
    simp [description_to_selector, descCore, ht, hi, selectorLookup_images]
  · intro ht hi hlu
    simp [description_to_selector, descCore, ht, hi, hlu, selectorLookup_links]

theorem shape_selector_invariant_witness :
    strIn "table" (normDesc "all images") = false ∧
      strIn "image" (normDesc "all images") = true ∧
      description_to_selector "all images" = (some "img", "src") :=
  ⟨by decide, by decide,
    (shape_selector_invariant "all images").2.2.2.1 (by decide) (by decide)⟩

/-- C5: end-to-end — for the fetched HTML
`<body><a href="/a">A</a><a href="x">B</a></body>` with source URL
`https://ex.com/` and description "all links", the interpreter selects
anchor elements with result type `href` and the extraction result list
is `["https://ex.com/a", "https://ex.com/x"]` in that order. -/
theorem end_to_end_all_links :
    description_to_selector "all links" = (some "a", "href") ∧
      (extractAction linkDoc "https://ex.com/" "all links" emptyState).state.results_df
        = some ["https://ex.com/a", "https://ex.com/x"] := by
  decide

/-- C6: for every document and selector, the text-block result joins
exactly the nonempty per-node texts with the double-newline separator:
nodes with empty visible text are dropped, every joined segment is
nonempty, and the separator only stands between two populated
segments. -/
theorem text_block_no_empty_segments (doc : Node) (sels : List SimpleSel) :
    textBlockOf (doc.select sels) =
      String.intercalate "\n\n"
        (((doc.select sels).map (Node.strippedText "")).filter (fun s => s ≠ "")) ∧
    ∀ s, s ∈ ((doc.select sels).map (Node.strippedText "")).filter (fun s => s ≠ "") →
      s ≠ "" := by
  refine ⟨rfl, ?_⟩
  intro s hs
  simpa using (List.mem_filter.mp hs).2

theorem text_block_no_empty_segments_witness :
    "A" ∈ ((linkDoc.select [SimpleSel.tagSel "a"]).map
        (Node.strippedText "")).filter (fun s => s ≠ "") ∧
      ("A" : String) ≠ "" :=
  ⟨by decide,
    (text_block_no_empty_segments linkDoc [SimpleSel.tagSel "a"]).2 "A" (by decide)⟩

theorem scrollAux_le (heights : Nat → Int) :
    ∀ fuel last i, scrollAux heights last i fuel ≤ fuel := by
  intro fuel
  induction fuel with
  | zero => intro last i; exact Nat.le_refl 0
  | succ f ih =>
    intro last i
    unfold scrollAux
    dsimp only
    split
    · exact Nat.succ_le_succ (Nat.zero_le f)
    · have := ih (heights (i + 1)) (i + 1)
      omega

theorem scrollAux_early_stop (heights : Nat → Int) :
    ∀ k fuel i, k < fuel →
      (∀ j, j < k → heights (i + j + 1) ≠ heights (i + j)) →
      heights (i + k + 1) = heights (i + k) →
      scrollAux heights (heights i) i fuel = k + 1 := by
  intro k
  induction k with
  | zero =>
    intro fuel i hk _ hstop
    match fuel, hk with
    | f + 1, _ =>
      unfold scrollAux
      rw [if_pos]
      simpa using hstop
  | succ k ih =>
    intro fuel i hk hne hstop
    match fuel, hk with
    | f + 1, hk =>
      unfold scrollAux
      rw [if_neg]
      · have h1 : scrollAux heights (heights (i + 1)) (i + 1) f = k + 1 := by
          apply ih f (i + 1) (Nat.lt_of_succ_lt_succ hk)
          · intro j hj
            have := hne (j + 1) (Nat.succ_lt_succ hj)
            have e1 : i + (j + 1) + 1 = i + 1 + j + 1 := by omega
            have e2 : i + (j + 1) = i + 1 + j := by omega
            rw [e1, e2] at this
            exact this
          · have e1 : i + (k + 1) + 1 = i + 1 + k + 1 := by omega
            have e2 : i + (k + 1) = i + 1 + k := by omega
            rw [e1, e2] at hstop
            exact hstop
        simp only [h1]
        omega
      · have := hne 0 (Nat.succ_pos k)
        simpa using this

/-- C8: the scroll loop of `get_page_source` performs at most 5
scroll-and-wait cycles; it stops after cycle `k+1` as soon as `k+1` is
the first read at which the scroll height stopped increasing; and it
terminates on every height sequence (`scrollCount` is a total
function). -/
theorem scroll_loop_bounded_early_stop (heights : Nat → Int) :
    scrollCount heights ≤ 5 ∧
    (∀ k, k < 5 → (∀ j, j < k → heights (j + 1) ≠ heights j) →
      heights (k + 1) = heights k → scrollCount heights = k + 1) := by
  constructor
  · exact scrollAux_le heights 5 (heights 0) 0
  · intro k hk hne hstop
    unfold scrollCount
    apply scrollAux_early_stop heights k 5 0 hk
    · intro j hj
      simpa using hne j hj
    · simpa using hstop

theorem scroll_loop_bounded_early_stop_witness :
    scrollCount (fun n => (min n 1 : Int)) ≤ 5 ∧
      scrollCount (fun n => (min n 1 : Int)) = 2 :=
  ⟨(scroll_loop_bounded_early_stop (fun n => (min n 1 : Int))).1,
    (scroll_loop_bounded_early_stop (fun n => (min n 1 : Int))).2 1
      (by decide) (by decide) (by decide)⟩

/-- C7: the interpret-plus-extract pipeline is a pure function of
(html, url, description): the ResultSet it produces does not depend on
the incoming session state, and re-running the handler on its own output
state reproduces the very same output (idempotence). -/
theorem extraction_pipeline_pure (doc : Node) (url d : String)
    (s₁ s₂ : SessionState) :
    (extractAction doc url d s₁).state.resultSet
      = (extractAction doc url d s₂).state.resultSet ∧
    extractAction doc url d (extractAction doc url d s₁).state
      = extractAction doc url d s₁ := by
  unfold extractAction SessionState.resultSet
  rcases description_to_selector d with ⟨_ | sel, rt⟩
  · exact ⟨rfl, rfl⟩
  · dsimp only
    split
    · rcases read_html doc with e | ts <;> exact ⟨rfl, rfl⟩
    · split <;> exact ⟨rfl, rfl⟩

/-- C2 counterexample: with prior results in the session state and the
unrecognized description "???", the handler sets all three result fields
to `None` before it ever checks the selector — the prior ResultSet is
destroyed, not left untouched. -/
theorem null_selector_clears_prior_results_cx :
    (description_to_selector "???").1 = none ∧
    priorState.results_df = some ["old row"] ∧
    priorState.results_text = some "old text" ∧
    priorState.table_list.isSome = true ∧
    (extractAction linkDoc "https://ex.com/" "???" priorState).state.results_df = none ∧
    (extractAction linkDoc "https://ex.com/" "???" priorState).state.results_text = none ∧
    (extractAction linkDoc "https://ex.com/" "???" priorState).state.table_list = none := by
  decide

/-- C2 (amended): when the interpreter returns a null selector, no
extraction is performed (the selector field is untouched) and a
user-visible error is surfaced, but the prior ResultSet is **cleared**
(all three result fields set to `None`) rather than left untouched. -/
theorem null_selector_no_extraction_but_clears
    (doc : Node) (url d : String) (s : SessionState)
    (h : (description_to_selector d).1 = none) :
    extractAction doc url d s =
      ⟨{ s with results_df := none, results_text := none, table_list := none },
        some "Could not understand your description."⟩ := by
  rcases hds : description_to_selector d with ⟨sel, rt⟩
  have hsel : sel = none := by rw [hds] at h; exact h
  subst hsel
  unfold extractAction
  rw [hds]

theorem null_selector_no_extraction_but_clears_witness :
    (description_to_selector "???").1 = none ∧
    extractAction linkDoc "https://ex.com/" "???" priorState =
      ⟨{ priorState with results_df := none, results_text := none, table_list := none },
        some "Could not understand your description."⟩ :=
  ⟨by decide,
    null_selector_no_extraction_but_clears linkDoc "https://ex.com/" "???" priorState
      (by decide)⟩

/-- C3 counterexample: a perfectly parseable document containing zero
tables does **not** yield a valid empty-sequence result — `read_html`
(pandas) raises "No tables found", the handler catches it and surfaces a
user-visible error, and `table_list` stays `None`. -/
theorem zero_tables_is_error_cx :
    linkDoc.tables = [] ∧
    description_to_selector "the table" = (some "table", "table_data") ∧
    (extractAction linkDoc "https://ex.com/" "the table" emptyState).error
      = some "Could not parse tables. Error: No tables found" ∧
    (extractAction linkDoc "https://ex.com/" "the table" emptyState).state.table_list
      = none := by
  decide

/-- C3 (amended): for table extraction, a document with zero tables is
an **error**, not a valid empty result: `pandas.read_html` raises
"No tables found", the handler catches it and surfaces the message, and
no partial results are stored (all three result fields stay `None`). -/
theorem table_parse_failure_no_partial_results
    (doc : Node) (url d : String) (s : SessionState)
    (h : description_to_selector d = (some "table", "table_data"))
    (he : doc.tables = []) :
    extractAction doc url d s =
      ⟨⟨none, none, none, some "table"⟩,
        some "Could not parse tables. Error: No tables found"⟩ := by
  unfold extractAction
  rw [h]
  dsimp only
  rw [if_pos rfl]
  unfold read_html
  dsimp only
  rw [he]
  rfl

theorem table_parse_failure_no_partial_results_witness :
    description_to_selector "the table" = (some "table", "table_data") ∧
    linkDoc.tables = [] ∧
    extractAction linkDoc "https://ex.com/" "the table" priorState =
      ⟨⟨none, none, none, some "table"⟩,
        some "Could not parse tables. Error: No tables found"⟩ :=
  ⟨by decide, by decide,
    table_parse_failure_no_partial_results linkDoc "https://ex.com/" "the table"
      priorState (by decide) (by decide)⟩

/-- C4 counterexample: an `<img src="">` element *has* a src attribute
whose value is not a base64 placeholder, so the claim requires it to be
resolved against the source URL and appended; the code instead skips it,
because `el.get('src','')` returns a falsy value. The claim-side
extraction (`srcSpecRow`, worded exactly as the claim) would produce
`["https://ex.com/"]`, the code produces `[]`. -/
theorem empty_src_skipped_cx :
    (extractAction emptySrcDoc "https://ex.com/" "all images" emptyState).state.results_df
      = some [] ∧
    (emptySrcDoc.select (parseSelector "img")).filterMap (srcSpecRow "https://ex.com/")
      = ["https://ex.com/"] := by
  decide

theorem rowOf_src_eq (url : String) (el : Node) :
    rowOf url "src" el = srcCodeRow url el := by
  rcases el with s | ⟨t, attrs, cs⟩
  · rfl
  · rcases h : attrOf attrs "src" with _ | v
    · simp [rowOf, srcCodeRow, Node.getAttrD, h]
    · simp only [rowOf, srcCodeRow, Node.getAttrD, h, Option.getD_some, if_pos rfl]
      by_cases hv : v = ""
      · subst hv; simp
      · cases hb : strIn "data:image/gif;base64" v
        · simp [hv, hb]
        · simp [hv, hb]

/-- C4 (amended): for attribute-src extraction, every selected element
whose src attribute is missing **or empty** is skipped, every element
whose src value is the inline base64 gif placeholder is omitted, and
every remaining src value is resolved against the page's source URL and
appended in document order. -/
theorem src_extraction_filter_resolve_order
    (doc : Node) (url d sel : String) (s : SessionState)
    (h : description_to_selector d = (some sel, "src")) :
    (extractAction doc url d s).state.results_df
      = some ((doc.select (parseSelector sel)).filterMap (srcCodeRow url)) := by
  unfold extractAction
  rw [h]
  dsimp only
  rw [if_neg (by decide), if_neg (by decide)]
  have hfun : rowOf url "src" = srcCodeRow url := funext (rowOf_src_eq url)
  rw [hfun]

theorem src_extraction_filter_resolve_order_witness :
    description_to_selector "all images" = (some "img", "src") ∧
    (extractAction imgDoc "https://ex.com/" "all images" emptyState).state.results_df
      = some ["https://ex.com/i.png"] :=
  ⟨by decide, by
    rw [src_extraction_filter_resolve_order imgDoc "https://ex.com/" "all images" "img"
      emptyState (by decide)]
    decide⟩

end ProScraper
